import Mathlib

/-!
Verification of the wasm-builder encoder.

Shallow embedding of the library's source files (`types.rs`, `instr.rs`,
`sections.rs`, `module.rs`).  Byte streams are modelled as `List Nat`
(each element a byte value); a Rust `writer.write` becomes list append.
Functions that can `panic!` return `Option`, with `none` standing for the
abort.  Functions that return a byte count (`io::Result<usize>` in the
source) return the count alongside the bytes, so that places where the
source drops or miscounts a length are reproduced faithfully.

The LEB128 loops of the external `leb128` crate are written with an
explicit fuel argument (structural recursion on `Nat`, always started
with enough fuel) so that every definition evaluates inside the kernel;
all other recursion is structural on the data.
-/

namespace WasmBuilder
/-! ## LEB128 primitives (crate `leb128`, used by `types.rs`) -/

/-- Modelled from the spec: unsigned LEB128 (§4.1) as implemented by the
external `leb128` crate (`leb128::write::unsigned`, not part of `src/`):
7-bit little-endian groups, continuation bit on every non-final byte,
shortest form.  Fuel-indexed loop body. -/
def lebUF : Nat → Nat → List Nat
  | 0, _ => []
  | fuel + 1, val =>
    let byte := val % 128
    let rest := val / 128
    if rest = 0 then [byte] else (byte + 128) :: lebUF fuel rest

/-- Unsigned LEB128; `val + 1` fuel always suffices since the remaining
value strictly decreases. -/
def lebU (val : Nat) : List Nat := lebUF (val + 1) val

/-- Modelled from the spec: signed LEB128 (§4.1) as implemented by the
external `leb128` crate (`leb128::write::signed`, not part of `src/`):
7-bit two's-complement groups; stop once the remaining value is all zeros
(resp. all ones) and the sign bit of the last payload byte matches. -/
def lebSF : Nat → Int → List Nat
  | 0, _ => []
  | fuel + 1, val =>
    let byte := (val % 128).toNat
    let rest := val / 128
    if (rest = 0 ∧ byte < 64) ∨ (rest = -1 ∧ 64 ≤ byte) then [byte]
    else (byte + 128) :: lebSF fuel rest

/-- Signed LEB128; `val.natAbs + 1` fuel always suffices. -/
def lebS (val : Int) : List Nat := lebSF (val.natAbs + 1) val

/-! ## `types.rs` -/

/-- `types::encode_u32` — unsigned LEB128 of a `u32` (cast to `u64`).
The returned byte count of the source is the length of this list. -/
def encode_u32 (val : Nat) : List Nat := lebU val

/-- `types::encode_i32` — signed LEB128 of an `i32` (cast to `i64`). -/
def encode_i32 (val : Int) : List Nat := lebS val

/-- `types::encode_i64` — signed LEB128 of an `i64`. -/
def encode_i64 (val : Int) : List Nat := lebS val

/-- `types::encode_vec` — length prefix (as LEB128 of the `size`
argument) followed by the raw bytes; also returns the byte count the
source function reports. -/
def encode_vec (bytes : List Nat) (size : Nat) : List Nat × Nat :=
  let l := encode_u32 size
  (l ++ bytes, l.length + bytes.length)

/-- Modelled from the spec: the UTF-8 bytes of one character
(`str::as_bytes` from the Rust standard library, not part of `src/`);
the spec (§4.1) says names are written as their UTF-8 bytes. -/
def utf8EncodeChar (c : Char) : List Nat :=
  let n := c.toNat
  if n < 128 then [n]
  else if n < 2048 then [192 + n / 64, 128 + n % 64]
  else if n < 65536 then [224 + n / 4096, 128 + n / 64 % 64, 128 + n % 64]
  else [240 + n / 262144, 128 + n / 4096 % 64, 128 + n / 64 % 64, 128 + n % 64]

/-- UTF-8 byte sequence of a string (a string is a list of unicode
scalar values, exactly as a Rust `String`). -/
def nameBytes (s : List Char) : List Nat := (s.map utf8EncodeChar).flatten

/-- `types::encode_name` — the source passes `val.as_bytes()` as the data
but `val.chars().count()` as the vector size. -/
def encode_name (s : List Char) : List Nat × Nat :=
  encode_vec (nameBytes s) s.length

/-- `types::ValType`. -/
inductive ValType where
  | I32
  | I64
  | F32
  | F64
deriving DecidableEq

/-- `types::encode_val_type`. -/
def encode_val_type : ValType → List Nat
  | .I32 => [0x7F]
  | .I64 => [0x7E]
  | .F32 => [0x7D]
  | .F64 => [0x7C]

/-- `types::Limits`. -/
structure Limits where
  min : Nat
  max : Option Nat

/-- `Limits::encode`. -/
def Limits.encode (l : Limits) : List Nat :=
  match l.max with
  | some max => [0x01] ++ encode_u32 l.min ++ encode_u32 max
  | none => [0x00] ++ encode_u32 l.min

/-- `types::encode_result_type`. -/
def encode_result_type (types : List ValType) : List Nat :=
  (encode_vec ((types.map encode_val_type).flatten) types.length).1

/-- `types::FunctionType`. -/
structure FunctionType where
  parameter_types : List ValType
  return_types : List ValType

/-- `FunctionType::encode`. -/
def FunctionType.encode (f : FunctionType) : List Nat :=
  [0x60] ++ encode_result_type f.parameter_types ++ encode_result_type f.return_types

/-- `types::MemoryType` (the memory-object type of `types.rs`). -/
structure MemoryType where
  lim : Limits

/-- `MemoryType::encode`. -/
def MemoryType.encode (m : MemoryType) : List Nat := m.lim.encode

/-- `types::TableType`. -/
structure TableType where
  lim : Limits

/-- `TableType::encode`. -/
def TableType.encode (t : TableType) : List Nat := [0x70] ++ t.lim.encode

/-- `types::GlobalType`. -/
structure GlobalType where
  ty : ValType
  mutable : Bool

/-- `GlobalType::encode` — value type then mutability byte
(`true → 0x01`, `false → 0x00`). -/
def GlobalType.encode (g : GlobalType) : List Nat :=
  encode_val_type g.ty ++ (if g.mutable then [0x01] else [0x00])

/-! ## `instr.rs` — data model -/

/-- `instr::BlockType` (the Rust variant `Type` is spelled `Typ` here,
`Type` being reserved in Lean). -/
inductive BlockType where
  | Empty
  | Typ (ty : ValType)
  | TypeIdx (idx : Nat)

/-- `BlockType::encode` — note the source encodes a type index with the
signed 64-bit LEB128 encoder. -/
def BlockType.encode : BlockType → List Nat
  | .Empty => [0x40]
  | .Typ ty => encode_val_type ty
  | .TypeIdx idx => encode_i64 (idx : Int)

/-- `instr::MemoryArgument`. -/
structure MemoryArgument where
  alignment : Nat
  offset : Nat

/-- `MemoryArgument::encode`. -/
def MemoryArgument.encode (m : MemoryArgument) : List Nat :=
  encode_u32 m.alignment ++ encode_u32 m.offset

namespace Instr

/-- `instr::MemoryType` — the value type of a load/store. -/
inductive MemoryType where
  | Int
  | Long
  | Float
  | Double

/-- `instr::StorageType` — the sub-width of a load/store/extension. -/
inductive StorageType where
  | Byte
  | Short
  | Int

/-- `instr::IntegerType`. -/
inductive IntegerType where
  | Int
  | Long

/-- `instr::FloatType`. -/
inductive FloatType where
  | Float
  | Double

/-- `instr::Literal`.  The `f32`/`f64` payloads are represented by the
little-endian bytes of their IEEE 754 images, which is all the encoder
ever reads of them (`to_le_bytes`). -/
inductive Literal where
  | Int (val : ℤ)
  | Long (val : ℤ)
  | Float (b0 b1 b2 b3 : Nat)
  | Double (b0 b1 b2 b3 b4 b5 b6 b7 : Nat)

end Instr

/-- `instr::Instruction`. -/
inductive Instruction where
  | Unreachable
  | NOP
  | Block (ty : BlockType) (instrs : List Instruction)
  | Loop (ty : BlockType) (instrs : List Instruction)
  | If (ty : BlockType) (accept_instrs : List Instruction)
      (reject_instrs : Option (List Instruction))
  | Branch (label : Nat)
  | BranchIf (label : Nat)
  | BranchTable (labels : List Nat) (operand : Nat)
  | Return
  | Call (idx : Nat)
  | CallIndirect (idx : Nat)
  | Drop
  | Select
  | LocalGet (idx : Nat)
  | LocalSet (idx : Nat)
  | LocalTee (idx : Nat)
  | GlobalGet (idx : Nat)
  | GlobalSet (idx : Nat)
  | Load (mem : MemoryArgument) (ty : Instr.MemoryType) (storage : Option (Bool × Instr.StorageType))
  | Store (mem : MemoryArgument) (ty : Instr.MemoryType) (storage : Option Instr.StorageType)
  | MemorySize
  | MemoryGrow
  | Const (lit : Instr.Literal)
  | EqualZero (ty : Instr.IntegerType)
  | Equal (ty : Instr.MemoryType)
  | NotEqual (ty : Instr.MemoryType)
  | LessThanInt (ty : Instr.IntegerType) (signed : Bool)
  | GreaterThanInt (ty : Instr.IntegerType) (signed : Bool)
  | LessOrEqualInt (ty : Instr.IntegerType) (signed : Bool)
  | GreaterOrEqualInt (ty : Instr.IntegerType) (signed : Bool)
  | LessThanFloat (ty : Instr.FloatType)
  | GreaterThanFloat (ty : Instr.FloatType)
  | LessOrEqualFloat (ty : Instr.FloatType)
  | GreaterOrEqualFloat (ty : Instr.FloatType)
  | CountLeadingZero (ty : Instr.IntegerType)
  | CountTrailingZero (ty : Instr.IntegerType)
  | CountOnes (ty : Instr.IntegerType)
  | Add (ty : Instr.MemoryType)
  | Subtract (ty : Instr.MemoryType)
  | Multiply (ty : Instr.MemoryType)
  | IntDivision (ty : Instr.IntegerType) (signed : Bool)
  | FloatDivision (ty : Instr.FloatType)
  | Remainder (ty : Instr.IntegerType) (signed : Bool)
  | And (ty : Instr.IntegerType)
  | Or (ty : Instr.IntegerType)
  | Xor (ty : Instr.IntegerType)
  | ShiftLeft (ty : Instr.IntegerType)
  | ShiftRight (ty : Instr.IntegerType) (signed : Bool)
  | LeftRotation (ty : Instr.IntegerType)
  | RightRotation (ty : Instr.IntegerType)
  | Absolute (ty : Instr.FloatType)
  | Negate (ty : Instr.FloatType)
  | Ceil (ty : Instr.FloatType)
  | Floor (ty : Instr.FloatType)
  | Truncate (ty : Instr.FloatType)
  | Nearest (ty : Instr.FloatType)
  | SquareRoot (ty : Instr.FloatType)
  | Minimum (ty : Instr.FloatType)
  | Maximum (ty : Instr.FloatType)
  | CopySign (ty : Instr.FloatType)
  | IntWrap
  | IntExtend (signed : Bool)
  | IntTruncate (ty : Instr.IntegerType) (float : Instr.FloatType) (signed : Bool)
  | Convert (ty : Instr.FloatType) (int : Instr.IntegerType) (signed : Bool)
  | FloatDemote
  | FloatPromote
  | IntReinterpret
  | LongReinterpret
  | FloatReinterpret
  | DoubleReinterpret
  | Extend (ty : Instr.IntegerType) (base : Instr.StorageType)
  | SaturateTruncate (ty : Instr.IntegerType) (float : Instr.FloatType) (signed : Bool)

/-! ## `instr.rs` — the instruction encoder

`Instruction::encode` writes bytes and returns an `io::Result<usize>`
byte count; a `panic!` is modelled as `none`.  The result pairs the bytes
written with the count the source function returns — the two differ in
exactly one arm (`SaturateTruncate`, whose `0xFC` prefix write's count is
discarded by the source). -/

/-- Opcode selection of the `Load` arm of `Instruction::encode`
(`none` is the arm's `panic!()`). -/
def loadOpcode : Instr.MemoryType → Option (Bool × Instr.StorageType) → Option Nat
  | .Int, some (s, .Byte) => some (if s then 0x2C else 0x2D)
  | .Int, some (s, .Short) => some (if s then 0x2E else 0x2F)
  | .Int, some (_, .Int) => none
  | .Int, none => some 0x28
  | .Long, some (s, .Byte) => some (if s then 0x30 else 0x31)
  | .Long, some (s, .Short) => some (if s then 0x32 else 0x33)
  | .Long, some (s, .Int) => some (if s then 0x34 else 0x35)
  | .Long, none => some 0x29
  | .Float, some _ => none
  | .Float, none => some 0x2A
  | .Double, some _ => none
  | .Double, none => some 0x2B

/-- Opcode selection of the `Store` arm of `Instruction::encode`
(`none` is the arm's `panic!()`). -/
def storeOpcode : Instr.MemoryType → Option Instr.StorageType → Option Nat
  | .Int, some .Byte => some 0x3A
  | .Int, some .Short => some 0x3B
  | .Int, some .Int => none
  | .Int, none => some 0x36
  | .Long, some .Byte => some 0x3C
  | .Long, some .Short => some 0x3D
  | .Long, some .Int => some 0x3E
  | .Long, none => some 0x37
  | .Float, some _ => none
  | .Float, none => some 0x38
  | .Double, some _ => none
  | .Double, none => some 0x39

mutual

/-- `Instruction::encode`. -/
def Instruction.encode : Instruction → Option (List Nat × Nat)
    | .Unreachable => some ([0x00], 1)
    | .NOP => some ([0x01], 1)
    | .Block ty instrs =>
      match encodeSeq instrs with
      | none => none
      | some (bs, n) =>
        some (0x02 :: BlockType.encode ty ++ bs ++ [0x0B],
              1 + (BlockType.encode ty).length + n + 1)
    | .Loop ty instrs =>
      match encodeSeq instrs with
      | none => none
      | some (bs, n) =>
        some (0x03 :: BlockType.encode ty ++ bs ++ [0x0B],
              1 + (BlockType.encode ty).length + n + 1)
    | .If ty accept_instrs reject_instrs =>
      match encodeSeq accept_instrs with
      | none => none
      | some (ab, an) =>
        match reject_instrs with
        | some reject =>
          match encodeSeq reject with
          | none => none
          | some (rb, rn) =>
            some (0x04 :: BlockType.encode ty ++ ab ++ 0x05 :: rb ++ [0x0B],
                  1 + (BlockType.encode ty).length + an + (1 + rn) + 1)
        | none =>
          some (0x04 :: BlockType.encode ty ++ ab ++ [0x0B],
                1 + (BlockType.encode ty).length + an + 1)
    | .Branch label =>
      some (0x0C :: encode_u32 label, 1 + (encode_u32 label).length)
    | .BranchIf label =>
      some (0x0D :: encode_u32 label, 1 + (encode_u32 label).length)
    | .BranchTable labels operand =>
      let v := encode_vec ((labels.map encode_u32).flatten) labels.length
      some (0x0E :: v.1 ++ encode_u32 operand,
            1 + v.2 + (encode_u32 operand).length)
    | .Return => some ([0x0F], 1)
    | .Call idx => some (0x10 :: encode_u32 idx, 1 + (encode_u32 idx).length)
    | .CallIndirect idx =>
      some (0x11 :: encode_u32 idx ++ [0x00], 1 + (encode_u32 idx).length + 1)
    | .Drop => some ([0x1A], 1)
    | .Select => some ([0x1B], 1)
    | .LocalGet idx => some (0x20 :: encode_u32 idx, 1 + (encode_u32 idx).length)
    | .LocalSet idx => some (0x21 :: encode_u32 idx, 1 + (encode_u32 idx).length)
    | .LocalTee idx => some (0x22 :: encode_u32 idx, 1 + (encode_u32 idx).length)
    | .GlobalGet idx => some (0x23 :: encode_u32 idx, 1 + (encode_u32 idx).length)
    | .GlobalSet idx => some (0x24 :: encode_u32 idx, 1 + (encode_u32 idx).length)
    | .Load mem ty storage =>
      match loadOpcode ty storage with
      | none => none
      | some b => some (b :: mem.encode, 1 + mem.encode.length)
    | .Store mem ty storage =>
      match storeOpcode ty storage with
      | none => none
      | some b => some (b :: mem.encode, 1 + mem.encode.length)
    | .MemorySize => some ([0x3F, 0x00], 2)
    | .MemoryGrow => some ([0x40, 0x00], 2)
    | .Const lit =>
      match lit with
      | .Int v => some (0x41 :: encode_i32 v, 1 + (encode_i32 v).length)
      | .Long v => some (0x42 :: encode_i64 v, 1 + (encode_i64 v).length)
      | .Float b0 b1 b2 b3 => some ([0x43, b0, b1, b2, b3], 5)
      | .Double b0 b1 b2 b3 b4 b5 b6 b7 =>
        some ([0x44, b0, b1, b2, b3, b4, b5, b6, b7], 9)
    | .EqualZero ty =>
      match ty with
      | .Int => some ([0x45], 1)
      | .Long => some ([0x50], 1)
    | .Equal ty =>
      match ty with
      | .Int => some ([0x46], 1)
      | .Long => some ([0x51], 1)
      | .Float => some ([0x5B], 1)
      | .Double => some ([0x61], 1)
    | .NotEqual ty =>
      match ty with
      | .Int => some ([0x47], 1)
      | .Long => some ([0x52], 1)
      | .Float => some ([0x5C], 1)
      | .Double => some ([0x62], 1)
    | .LessThanInt ty signed =>
      match ty, signed with
      | .Int, true => some ([0x48], 1)
      | .Int, false => some ([0x49], 1)
      | .Long, true => some ([0x53], 1)
      | .Long, false => some ([0x54], 1)
    | .GreaterThanInt ty signed =>
      match ty, signed with
      | .Int, true => some ([0x4A], 1)
      | .Int, false => some ([0x4B], 1)
      | .Long, true => some ([0x55], 1)
      | .Long, false => some ([0x56], 1)
    | .LessOrEqualInt ty signed =>
      match ty, signed with
      | .Int, true => some ([0x4C], 1)
      | .Int, false => some ([0x4D], 1)
      | .Long, true => some ([0x57], 1)
      | .Long, false => some ([0x58], 1)
    | .GreaterOrEqualInt ty signed =>
      match ty, signed with
      | .Int, true => some ([0x4E], 1)
      | .Int, false => some ([0x4F], 1)
      | .Long, true => some ([0x59], 1)
      | .Long, false => some ([0x5A], 1)
    | .LessThanFloat ty =>
      match ty with
      | .Float => some ([0x5D], 1)
      | .Double => some ([0x63], 1)
    | .GreaterThanFloat ty =>
      match ty with
      | .Float => some ([0x5E], 1)
      | .Double => some ([0x64], 1)
    | .LessOrEqualFloat ty =>
      match ty with
      | .Float => some ([0x5F], 1)
      | .Double => some ([0x65], 1)
    | .GreaterOrEqualFloat ty =>
      match ty with
      | .Float => some ([0x60], 1)
      | .Double => some ([0x66], 1)
    | .CountLeadingZero ty =>
      match ty with
      | .Int => some ([0x67], 1)
      | .Long => some ([0x79], 1)
    | .CountTrailingZero ty =>
      match ty with
      | .Int => some ([0x68], 1)
      | .Long => some ([0x7A], 1)
    | .CountOnes ty =>
      match ty with
      | .Int => some ([0x69], 1)
      | .Long => some ([0x7B], 1)
    | .Add ty =>
      match ty with
      | .Int => some ([0x6A], 1)
      | .Long => some ([0x7C], 1)
      | .Float => some ([0x92], 1)
      | .Double => some ([0xA0], 1)
    | .Subtract ty =>
      match ty with
      | .Int => some ([0x6B], 1)
      | .Long => some ([0x7D], 1)
      | .Float => some ([0x93], 1)
      | .Double => some ([0xA1], 1)
    | .Multiply ty =>
      match ty with
      | .Int => some ([0x6C], 1)
      | .Long => some ([0x7E], 1)
      | .Float => some ([0x94], 1)
      | .Double => some ([0xA2], 1)
    | .IntDivision ty signed =>
      match ty, signed with
      | .Int, true => some ([0x6D], 1)
      | .Int, false => some ([0x6E], 1)
      | .Long, true => some ([0x7F], 1)
      | .Long, false => some ([0x80], 1)
    | .FloatDivision ty =>
      match ty with
      | .Float => some ([0x95], 1)
      | .Double => some ([0xA3], 1)
    | .Remainder ty signed =>
      match ty, signed with
      | .Int, true => some ([0x6F], 1)
      | .Int, false => some ([0x70], 1)
      | .Long, true => some ([0x81], 1)
      | .Long, false => some ([0x82], 1)
    | .And ty =>
      match ty with
      | .Int => some ([0x71], 1)
      | .Long => some ([0x83], 1)
    | .Or ty =>
      match ty with
      | .Int => some ([0x72], 1)
      | .Long => some ([0x84], 1)
    | .Xor ty =>
      match ty with
      | .Int => some ([0x73], 1)
      | .Long => some ([0x85], 1)
    | .ShiftLeft ty =>
      match ty with
      | .Int => some ([0x74], 1)
      | .Long => some ([0x86], 1)
    | .ShiftRight ty signed =>
      match ty, signed with
      | .Int, true => some ([0x75], 1)
      | .Int, false => some ([0x76], 1)
      | .Long, true => some ([0x87], 1)
      | .Long, false => some ([0x88], 1)
    | .LeftRotation ty =>
      match ty with
      | .Int => some ([0x77], 1)
      | .Long => some ([0x78], 1)
    | .RightRotation ty =>
      match ty with
      | .Int => some ([0x89], 1)
      | .Long => some ([0x8A], 1)
    | .Absolute ty =>
      match ty with
      | .Float => some ([0x8B], 1)
      | .Double => some ([0x99], 1)
    | .Negate ty =>
      match ty with
      | .Float => some ([0x8C], 1)
      | .Double => some ([0x9A], 1)
    | .Ceil ty =>
      match ty with
      | .Float => some ([0x8D], 1)
      | .Double => some ([0x9B], 1)
    | .Floor ty =>
      match ty with
      | .Float => some ([0x8E], 1)
      | .Double => some ([0x9C], 1)
    | .Truncate ty =>
      match ty with
      | .Float => some ([0x8F], 1)
      | .Double => some ([0x9D], 1)
    | .Nearest ty =>
      match ty with
      | .Float => some ([0x90], 1)
      | .Double => some ([0x9E], 1)
    | .SquareRoot ty =>
      match ty with
      | .Float => some ([0x91], 1)
      | .Double => some ([0x9F], 1)
    | .Minimum ty =>
      match ty with
      | .Float => some ([0x96], 1)
      | .Double => some ([0xA4], 1)
    | .Maximum ty =>
      match ty with
      | .Float => some ([0x97], 1)
      | .Double => some ([0xA5], 1)
    | .CopySign ty =>
      match ty with
      | .Float => some ([0x98], 1)
      | .Double => some ([0xA6], 1)
    | .IntWrap => some ([0xA7], 1)
    | .IntExtend signed =>
      match signed with
      | true => some ([0xAC], 1)
      | false => some ([0xAD], 1)
    | .IntTruncate ty float signed =>
      match ty, float, signed with
      | .Int, .Float, true => some ([0xA8], 1)
      | .Int, .Float, false => some ([0xA9], 1)
      | .Int, .Double, true => some ([0xAA], 1)
      | .Int, .Double, false => some ([0xAB], 1)
      | .Long, .Float, true => some ([0xAE], 1)
      | .Long, .Float, false => some ([0xAF], 1)
      | .Long, .Double, true => some ([0xB0], 1)
      | .Long, .Double, false => some ([0xB1], 1)
    | .Convert ty int signed =>
      match ty, int, signed with
      | .Float, .Int, true => some ([0xB2], 1)
      | .Float, .Int, false => some ([0xB3], 1)
      | .Float, .Long, true => some ([0xB4], 1)
      | .Float, .Long, false => some ([0xB5], 1)
      | .Double, .Int, true => some ([0xB7], 1)
      | .Double, .Int, false => some ([0xB8], 1)
      | .Double, .Long, true => some ([0xB9], 1)
      | .Double, .Long, false => some ([0xBA], 1)
    | .FloatDemote => some ([0xB6], 1)
    | .FloatPromote => some ([0xBB], 1)
    | .IntReinterpret => some ([0xBC], 1)
    | .LongReinterpret => some ([0xBD], 1)
    | .FloatReinterpret => some ([0xBE], 1)
    | .DoubleReinterpret => some ([0xBF], 1)
    | .Extend ty base =>
      match ty, base with
      | .Int, .Byte => some ([0xC0], 1)
      | .Int, .Short => some ([0xC1], 1)
      | .Int, .Int => none
      | .Long, .Byte => some ([0xC2], 1)
      | .Long, .Short => some ([0xC3], 1)
      | .Long, .Int => some ([0xC4], 1)
    | .SaturateTruncate ty float signed =>
      let sub : Nat :=
        match ty, float, signed with
        | .Int, .Float, true => 0x00
        | .Int, .Float, false => 0x01
        | .Int, .Double, true => 0x02
        | .Int, .Double, false => 0x03
        | .Long, .Float, true => 0x04
        | .Long, .Float, false => 0x05
        | .Long, .Double, true => 0x06
        | .Long, .Double, false => 0x07
      some ([0xFC, sub], 1)

/-- Encoding of an instruction sequence (the `for` loops of the
block-structured arms and of `Expr::encode`); the count is the sum of the
counts the arms report. -/
def encodeSeq : List Instruction → Option (List Nat × Nat)
  | [] => some ([], 0)
  | i :: is =>
    match Instruction.encode i with
    | none => none
    | some (b, n) =>
      match encodeSeq is with
      | none => none
      | some (bs, m) => some (b ++ bs, n + m)

end

/-- `instr::Expr`. -/
structure Expr where
  instrs : List Instruction

/-- `Expr::encode` — the body followed by the `0x0B` end marker. -/
def Expr.encode (e : Expr) : Option (List Nat × Nat) :=
  match encodeSeq e.instrs with
  | none => none
  | some (bs, n) => some (bs ++ [0x0B], n + 1)

/-! ## `sections.rs` -/

/-- `sections::Desc`. -/
inductive Desc where
  | Function (idx : Nat)
  | Table (table : TableType)
  | Memory (mem : MemoryType)
  | Global (global : GlobalType)

/-- `Desc::encode`. -/
def Desc.encode : Desc → List Nat
  | .Function func => 0x00 :: encode_u32 func
  | .Table table => 0x01 :: table.encode
  | .Memory mem => 0x02 :: mem.encode
  | .Global global => 0x03 :: global.encode

/-- `sections::Import`. -/
structure Import where
  module : List Char
  name : List Char
  desc : Desc

/-- `Import::encode`. -/
def Import.encode (i : Import) : List Nat :=
  (encode_name i.module).1 ++ (encode_name i.name).1 ++ i.desc.encode

/-- `sections::Global`. -/
structure Global where
  ty : GlobalType
  init : Expr

/-- `Global::encode`. -/
def Global.encode (g : Global) : Option (List Nat) :=
  match g.init.encode with
  | none => none
  | some (e, _) => some (g.ty.encode ++ e)

/-- `sections::Export`. -/
structure Export where
  name : List Char
  desc : Desc

/-- `Export::encode`. -/
def Export.encode (e : Export) : List Nat :=
  (encode_name e.name).1 ++ e.desc.encode

/-- `sections::Element`. -/
structure Element where
  table : Nat
  offset : Expr
  init : List Nat

/-- `Element::encode`. -/
def Element.encode (e : Element) : Option (List Nat) :=
  match e.offset.encode with
  | none => none
  | some (ob, _) =>
    some (encode_u32 e.table ++ ob ++
      (encode_vec ((e.init.map encode_u32).flatten) e.init.length).1)

/-- `sections::Local`. -/
structure Local where
  n : Nat
  ty : ValType

/-- `Local::encode`. -/
def Local.encode (l : Local) : List Nat := encode_u32 l.n ++ encode_val_type l.ty

/-- `sections::Function` (a code entry). -/
structure Function where
  locals : List Local
  body : Expr

/-- `Function::encode` — returns the bytes written and the count the
source function reports (the count is what `encode_code` later uses as
the entry-size prefix). -/
def Function.encode (f : Function) : Option (List Nat × Nat) :=
  let buf := (f.locals.map Local.encode).flatten
  let v := encode_vec buf f.locals.length
  match f.body.encode with
  | none => none
  | some (eb, en) => some (v.1 ++ eb, v.2 + en)

/-- `sections::Data`. -/
structure Data where
  mem : Nat
  offset : Expr
  init : List Nat

/-- `Data::encode`. -/
def Data.encode (d : Data) : Option (List Nat) :=
  match d.offset.encode with
  | none => none
  | some (ob, _) =>
    some (encode_u32 d.mem ++ ob ++ (encode_vec d.init d.init.length).1)

/-- `sections::encode_section_header` — id byte then LEB128 size. -/
def encode_section_header (id : Nat) (size : Nat) : List Nat :=
  id :: encode_u32 size

/-- Common body of the nine vector-shaped `encode_*_section` functions of
the source: serialize the element vector into a buffer, then emit
`id ‖ LEB128(size) ‖ LEB128(count) ‖ buffer` where `size` is the byte
count reported by `encode_vec` for the payload. -/
def encode_vec_section (id : Nat) (buf : List Nat) (count : Nat) : List Nat :=
  let data := encode_vec buf count
  encode_section_header id data.2 ++ data.1

/-- `sections::encode_type_section`. -/
def encode_type_section (s : List FunctionType) : List Nat :=
  encode_vec_section 1 ((s.map FunctionType.encode).flatten) s.length

/-- `sections::encode_import_section`. -/
def encode_import_section (s : List Import) : List Nat :=
  encode_vec_section 2 ((s.map Import.encode).flatten) s.length

/-- `sections::encode_function_section`. -/
def encode_function_section (s : List Nat) : List Nat :=
  encode_vec_section 3 ((s.map encode_u32).flatten) s.length

/-- `sections::encode_table_section`. -/
def encode_table_section (s : List TableType) : List Nat :=
  encode_vec_section 4 ((s.map TableType.encode).flatten) s.length

/-- `sections::encode_memory_section`. -/
def encode_memory_section (s : List MemoryType) : List Nat :=
  encode_vec_section 5 ((s.map MemoryType.encode).flatten) s.length

/-- Serialization of a list of fallible element encoders into one buffer
(the `for` loops of the section encoders whose elements contain an
`Expr`). -/
def encodeAll {α : Type} (f : α → Option (List Nat)) : List α → Option (List Nat)
  | [] => some []
  | x :: xs =>
    match f x with
    | none => none
    | some b =>
      match encodeAll f xs with
      | none => none
      | some bs => some (b ++ bs)

/-- `sections::encode_global_section`. -/
def encode_global_section (s : List Global) : Option (List Nat) :=
  match encodeAll Global.encode s with
  | none => none
  | some buf => some (encode_vec_section 6 buf s.length)

/-- `sections::encode_export_section`. -/
def encode_export_section (s : List Export) : List Nat :=
  encode_vec_section 7 ((s.map Export.encode).flatten) s.length

/-- `sections::encode_start_section` — the payload is a single LEB128
function index (not a vector); the size is the count `encode_u32`
reports. -/
def encode_start_section (start : Nat) : List Nat :=
  encode_section_header 8 (encode_u32 start).length ++ encode_u32 start

/-- `sections::encode_element_section`. -/
def encode_element_section (s : List Element) : Option (List Nat) :=
  match encodeAll Element.encode s with
  | none => none
  | some buf => some (encode_vec_section 9 buf s.length)

/-- `sections::encode_code` — one code entry: the size `Function::encode`
*reports*, as a LEB128 prefix, followed by the bytes it wrote. -/
def encode_code (func : Function) : Option (List Nat) :=
  match func.encode with
  | none => none
  | some (buf, size) => some (encode_u32 size ++ buf)

/-- `sections::encode_code_section`. -/
def encode_code_section (s : List Function) : Option (List Nat) :=
  match encodeAll encode_code s with
  | none => none
  | some buf => some (encode_vec_section 10 buf s.length)

/-- `sections::encode_data_section`. -/
def encode_data_section (s : List Data) : Option (List Nat) :=
  match encodeAll Data.encode s with
  | none => none
  | some buf => some (encode_vec_section 11 buf s.length)

/-! ## `module.rs` -/

/-- `module::MAGIC` — the `\0asm` prologue. -/
def MAGIC : List Nat := [0x00, 0x61, 0x73, 0x6D]

/-- `module::VERSION` — version 1. -/
def VERSION : List Nat := [0x01, 0x00, 0x00, 0x00]

/-- `module::Module`. -/
structure Module where
  types : List FunctionType
  imports : List Import
  functions : List Nat
  tables : List TableType
  memory : List MemoryType
  globals : List Global
  exports : List Export
  start : Option Nat
  elements : List Element
  code : List Function
  data : List Data

/-- `Module::new` — the empty module. -/
def Module.new : Module :=
  ⟨[], [], [], [], [], [], [], none, [], [], []⟩

/-- `Module::encode` — magic, version, then each section in canonical
order, each emitted only when its collection is non-empty (for the start
section: when the index is set). -/
def Module.encode (m : Module) : Option (List Nat) :=
  match (if m.globals.length ≠ 0 then encode_global_section m.globals else some []) with
  | none => none
  | some s6 =>
    match (if m.elements.length ≠ 0 then encode_element_section m.elements else some []) with
    | none => none
    | some s9 =>
      match (if m.code.length ≠ 0 then encode_code_section m.code else some []) with
      | none => none
      | some s10 =>
        match (if m.data.length ≠ 0 then encode_data_section m.data else some []) with
        | none => none
        | some s11 =>
          some (MAGIC ++ VERSION ++
            (if m.types.length ≠ 0 then encode_type_section m.types else []) ++
            (if m.imports.length ≠ 0 then encode_import_section m.imports else []) ++
            (if m.functions.length ≠ 0 then encode_function_section m.functions else []) ++
            (if m.tables.length ≠ 0 then encode_table_section m.tables else []) ++
            (if m.memory.length ≠ 0 then encode_memory_section m.memory else []) ++
            s6 ++
            (if m.exports.length ≠ 0 then encode_export_section m.exports else []) ++
            (match m.start with
             | some start => encode_start_section start
             | none => []) ++
            s9 ++ s10 ++ s11)

/-! ## Length bounds for the LEB128 encoders (the `assert!`s of
`types.rs`) -/

/-! ## Impossible shapes -/

/-- Impossible load shapes as the specification lists them (§7). -/
def loadBad : Instr.MemoryType → Option (Bool × Instr.StorageType) → Bool
  | .Int, some (_, .Int) => true
  | .Float, some _ => true
  | .Double, some _ => true
  | _, _ => false

/-- Impossible store shapes as the specification lists them (§7). -/
def storeBad : Instr.MemoryType → Option Instr.StorageType → Bool
  | .Int, some .Int => true
  | .Float, some _ => true
  | .Double, some _ => true
  | _, _ => false

/-- Impossible sign-extension shapes as the specification lists them
(§7). -/
def extendBad : Instr.IntegerType → Instr.StorageType → Bool
  | .Int, .Int => true
  | _, _ => false

mutual

/-- Whether an instruction is, or contains nested inside a block, loop or
if body, one of the structurally unrepresentable shapes. -/
def hasImpossible : Instruction → Bool
  | .Block _ instrs => hasImpossibleSeq instrs
  | .Loop _ instrs => hasImpossibleSeq instrs
  | .If _ acc rej =>
    hasImpossibleSeq acc ||
      (match rej with
       | some r => hasImpossibleSeq r
       | none => false)
  | .Load _ ty st => loadBad ty st
  | .Store _ ty st => storeBad ty st
  | .Extend ty base => extendBad ty base
  | _ => false

/-- Whether an instruction list contains an impossible shape. -/
def hasImpossibleSeq : List Instruction → Bool
  | [] => false
  | i :: is => hasImpossible i || hasImpossibleSeq is

end

/-! ## Section-level view of `Module::encode` (framing, ordering and
emptiness properties) -/

/-- Rendering of one section from its id and payload:
`id ‖ LEB128(payload length) ‖ payload`. -/
def renderSec (p : Nat × List Nat) : List Nat :=
  p.1 :: encode_u32 p.2.length ++ p.2

/-- Rendering of a list of sections. -/
def renderSecs (secs : List (Nat × List Nat)) : List Nat :=
  (secs.map renderSec).flatten

/-- The payload of a vector-shaped section: count prefix then buffer. -/
def vecPayload (buf : List Nat) (count : Nat) : List Nat :=
  (encode_vec buf count).1

/-- The sections a vector-shaped collection contributes. -/
def vecSecs {α : Type} (enc : α → List Nat) (id : Nat) (xs : List α) :
    List (Nat × List Nat) :=
  if xs.length ≠ 0 then [(id, vecPayload ((xs.map enc).flatten) xs.length)]
  else []

/-- The sections a fallible vector-shaped collection contributes. -/
def optSecs {α : Type} (f : α → Option (List Nat)) (id : Nat) (xs : List α) :
    Option (List (Nat × List Nat)) :=
  if xs.length ≠ 0 then
    match encodeAll f xs with
    | none => none
    | some buf => some [(id, vecPayload buf xs.length)]
  else some []

/-- The section the start index contributes. -/
def startSecs : Option Nat → List (Nat × List Nat)
  | some s => [(8, encode_u32 s)]
  | none => []

/-- The (id, payload) pairs of the sections `Module::encode` emits, in
emission order; `none` when some instruction aborts the encoding. -/
def moduleSections (m : Module) : Option (List (Nat × List Nat)) :=
  match optSecs Global.encode 6 m.globals with
  | none => none
  | some g =>
    match optSecs Element.encode 9 m.elements with
    | none => none
    | some e =>
      match optSecs encode_code 10 m.code with
      | none => none
      | some c =>
        match optSecs Data.encode 11 m.data with
        | none => none
        | some d =>
          some (vecSecs FunctionType.encode 1 m.types ++
            vecSecs Import.encode 2 m.imports ++
            vecSecs encode_u32 3 m.functions ++
            vecSecs TableType.encode 4 m.tables ++
            vecSecs MemoryType.encode 5 m.memory ++
            g ++
            vecSecs Export.encode 7 m.exports ++
            startSecs m.start ++
            e ++ c ++ d)

/-- Which sections are present: a section is emitted exactly when its
collection is non-empty (for the start section, when an index is set). -/
def presentB (m : Module) : Nat → Bool
  | 1 => decide (m.types.length ≠ 0)
  | 2 => decide (m.imports.length ≠ 0)
  | 3 => decide (m.functions.length ≠ 0)
  | 4 => decide (m.tables.length ≠ 0)
  | 5 => decide (m.memory.length ≠ 0)
  | 6 => decide (m.globals.length ≠ 0)
  | 7 => decide (m.exports.length ≠ 0)
  | 8 => m.start.isSome
  | 9 => decide (m.elements.length ≠ 0)
  | 10 => decide (m.code.length ≠ 0)
  | 11 => decide (m.data.length ≠ 0)
  | _ => false

/-! ## The claims -/

/-- The specification's list of structurally unrepresentable shapes, read
as a predicate on the instruction itself (no recursion into block
bodies): an `i32` load/store with a 32-bit sub-storage, an `f32`/`f64`
load/store with any sub-storage, an `i32` extension from a 32-bit base. -/
def isImpossibleShape (i : Instruction) : Bool :=
  match i with
  | .Load _ ty st => loadBad ty st
  | .Store _ ty st => storeBad ty st
  | .Extend ty base => extendBad ty base
  | _ => false


/-! ## Theorems -/

/-- Unsigned LEB128 output length: a value below `2 ^ (7 * k)` takes at
most `k` bytes. -/
theorem lebUF_length (fuel : Nat) :
    ∀ (val k : Nat), val < fuel → val < 2 ^ (7 * k) → 1 ≤ k →
      (lebUF fuel val).length ≤ k := by
  induction fuel with
  | zero => intro val k h _ _; omega
  | succ fuel ih =>
    intro val k hlt hval hk
    simp only [lebUF]
    by_cases hr : val / 128 = 0
    · rw [if_pos hr]; simpa using hk
    · rw [if_neg hr]
      have hval128 : 128 ≤ val := by
        by_contra h
        exact hr (Nat.div_eq_of_lt (by omega))
      have h2 : 2 ≤ k := by
        by_contra h
        have hk1 : k = 1 := by omega
        subst hk1
        norm_num at hval
        omega
      have hdiv_lt_fuel : val / 128 < fuel := by
        have h1 : val / 128 < val := Nat.div_lt_self (by omega) (by omega)
        omega
      have hdiv_pow : val / 128 < 2 ^ (7 * (k - 1)) := by
        have hsplit : 7 * k = 7 * (k - 1) + 7 := by omega
        rw [hsplit, pow_add] at hval
        refine (Nat.div_lt_iff_lt_mul (by norm_num)).mpr ?_
        calc val < 2 ^ (7 * (k - 1)) * 2 ^ 7 := hval
          _ = 2 ^ (7 * (k - 1)) * 128 := by norm_num
      have hrec := ih (val / 128) (k - 1) hdiv_lt_fuel hdiv_pow (by omega)
      simp only [List.length_cons]
      omega

/-- Signed LEB128 output length: a value in
`[-2 ^ (7 * k - 1), 2 ^ (7 * k - 1))` takes at most `k` bytes. -/
theorem lebSF_length (fuel : Nat) :
    ∀ (val : Int) (k : Nat), val.natAbs < fuel → 1 ≤ k →
      -(2 ^ (7 * k - 1)) ≤ val → val < 2 ^ (7 * k - 1) →
      (lebSF fuel val).length ≤ k := by
  induction fuel with
  | zero => intro val k h _ _ _; omega
  | succ fuel ih =>
    intro val k hlt hk hlo hhi
    simp only [lebSF]
    by_cases hdone : (val / 128 = 0 ∧ (val % 128).toNat < 64) ∨
        (val / 128 = -1 ∧ 64 ≤ (val % 128).toNat)
    · rw [if_pos hdone]; simpa using hk
    · rw [if_neg hdone]
      push_neg at hdone
      have h2 : 2 ≤ k := by
        by_contra h
        have hk1 : k = 1 := by omega
        subst hk1
        norm_num at hlo hhi
        omega
      have hsplit : (2 : Int) ^ (7 * k - 1) = 2 ^ (7 * (k - 1) - 1) * 128 := by
        rw [show 7 * k - 1 = (7 * (k - 1) - 1) + 7 by omega, pow_add]
        norm_num
      rw [hsplit] at hlo hhi
      have hA : (0 : Int) < 2 ^ (7 * (k - 1) - 1) := by positivity
      have hrec := ih (val / 128) (k - 1) (by omega) (by omega)
        (by omega) (by omega)
      simp only [List.length_cons]
      omega

/-- `encode_u32` writes at most 5 bytes for a `u32` value. -/
theorem encode_u32_length (v : Nat) (h : v < 4294967296) :
    (encode_u32 v).length ≤ 5 := by
  refine lebUF_length (v + 1) v 5 (by omega) ?_ (by norm_num)
  calc v < 4294967296 := h
    _ ≤ 2 ^ (7 * 5) := by norm_num

/-- `encode_i32` writes at most 5 bytes for an `i32` value. -/
theorem encode_i32_length (v : Int) (h1 : -2147483648 ≤ v)
    (h2 : v < 2147483648) : (encode_i32 v).length ≤ 5 := by
  refine lebSF_length (v.natAbs + 1) v 5 (by omega) (by norm_num) ?_ ?_
  · have : -(2 ^ (7 * 5 - 1) : Int) = -17179869184 := by norm_num
    omega
  · have : ((2 : Int) ^ (7 * 5 - 1)) = 17179869184 := by norm_num
    omega

/-- `encode_i64` writes at most 10 bytes for an `i64` value. -/
theorem encode_i64_length (v : Int) (h1 : -9223372036854775808 ≤ v)
    (h2 : v < 9223372036854775808) : (encode_i64 v).length ≤ 10 := by
  refine lebSF_length (v.natAbs + 1) v 10 (by omega) (by norm_num) ?_ ?_
  · have : -(2 ^ (7 * 10 - 1) : Int) = -590295810358705651712 := by norm_num
    omega
  · have : ((2 : Int) ^ (7 * 10 - 1)) = 590295810358705651712 := by norm_num
    omega

theorem loadOpcode_isNone (ty : Instr.MemoryType)
    (st : Option (Bool × Instr.StorageType)) :
    (loadOpcode ty st).isNone = loadBad ty st := by
  cases ty <;> rcases st with _ | ⟨s, w⟩ <;> try rfl
  all_goals cases w <;> rfl

theorem storeOpcode_isNone (ty : Instr.MemoryType)
    (st : Option Instr.StorageType) :
    (storeOpcode ty st).isNone = storeBad ty st := by
  cases ty <;> rcases st with _ | w <;> try rfl
  all_goals cases w <;> rfl

/-! Unfolding equations, proved definitionally (the automatic equation
lemma generation does not scale to the 70-arm encoder). -/

theorem encode_Block (ty : BlockType) (instrs : List Instruction) :
    Instruction.encode (.Block ty instrs) =
      match encodeSeq instrs with
      | none => none
      | some (bs, n) =>
        some (0x02 :: BlockType.encode ty ++ bs ++ [0x0B],
              1 + (BlockType.encode ty).length + n + 1) := rfl

theorem encode_Loop (ty : BlockType) (instrs : List Instruction) :
    Instruction.encode (.Loop ty instrs) =
      match encodeSeq instrs with
      | none => none
      | some (bs, n) =>
        some (0x03 :: BlockType.encode ty ++ bs ++ [0x0B],
              1 + (BlockType.encode ty).length + n + 1) := rfl

theorem encode_If (ty : BlockType) (acc : List Instruction)
    (rej : Option (List Instruction)) :
    Instruction.encode (.If ty acc rej) =
      (match encodeSeq acc with
      | none => none
      | some (ab, an) =>
        match rej with
        | some reject =>
          match encodeSeq reject with
          | none => none
          | some (rb, rn) =>
            some (0x04 :: BlockType.encode ty ++ ab ++ 0x05 :: rb ++ [0x0B],
                  1 + (BlockType.encode ty).length + an + (1 + rn) + 1)
        | none =>
          some (0x04 :: BlockType.encode ty ++ ab ++ [0x0B],
                1 + (BlockType.encode ty).length + an + 1)) := by
  cases rej <;> rfl

theorem encode_Load (mem : MemoryArgument) (ty : Instr.MemoryType)
    (st : Option (Bool × Instr.StorageType)) :
    Instruction.encode (.Load mem ty st) =
      (match loadOpcode ty st with
      | none => none
      | some b => some (b :: mem.encode, 1 + mem.encode.length)) := rfl

theorem encode_Store (mem : MemoryArgument) (ty : Instr.MemoryType)
    (st : Option Instr.StorageType) :
    Instruction.encode (.Store mem ty st) =
      (match storeOpcode ty st with
      | none => none
      | some b => some (b :: mem.encode, 1 + mem.encode.length)) := rfl

theorem encodeSeq_cons (i : Instruction) (is : List Instruction) :
    encodeSeq (i :: is) =
      (match Instruction.encode i with
      | none => none
      | some (b, n) =>
        match encodeSeq is with
        | none => none
        | some (bs, m) => some (b ++ bs, n + m)) := rfl

theorem hasImpossible_Block (ty : BlockType) (instrs : List Instruction) :
    hasImpossible (.Block ty instrs) = hasImpossibleSeq instrs := rfl

theorem hasImpossible_Loop (ty : BlockType) (instrs : List Instruction) :
    hasImpossible (.Loop ty instrs) = hasImpossibleSeq instrs := rfl

theorem hasImpossible_If (ty : BlockType) (acc : List Instruction)
    (rej : Option (List Instruction)) :
    hasImpossible (.If ty acc rej) =
      (hasImpossibleSeq acc ||
        (match rej with
         | some r => hasImpossibleSeq r
         | none => false)) := by
  cases rej <;> rfl

theorem hasImpossible_Load (mem : MemoryArgument) (ty : Instr.MemoryType)
    (st : Option (Bool × Instr.StorageType)) :
    hasImpossible (.Load mem ty st) = loadBad ty st := rfl

theorem hasImpossible_Store (mem : MemoryArgument) (ty : Instr.MemoryType)
    (st : Option Instr.StorageType) :
    hasImpossible (.Store mem ty st) = storeBad ty st := rfl

theorem hasImpossibleSeq_cons (i : Instruction) (is : List Instruction) :
    hasImpossibleSeq (i :: is) = (hasImpossible i || hasImpossibleSeq is) := rfl

/-- Key characterization: the encoder aborts exactly on instructions that
contain an impossible shape. -/
theorem encode_isNone_eq :
    (∀ i : Instruction, (Instruction.encode i).isNone = hasImpossible i) ∧
    (∀ l : List Instruction, (encodeSeq l).isNone = hasImpossibleSeq l) := by
  apply Instruction.encode.mutual_induct <;> intros
  any_goals solve | rfl
  all_goals
    simp_all only [encode_Block, encode_Loop, encode_If, encode_Load,
      encode_Store, encodeSeq_cons, hasImpossible_Block, hasImpossible_Loop,
      hasImpossible_If, hasImpossible_Load, hasImpossible_Store,
      hasImpossibleSeq_cons, ← loadOpcode_isNone, ← storeOpcode_isNone,
      Option.isNone_some, Option.isNone_none, Bool.true_or, Bool.false_or,
      Bool.or_true, Bool.or_false]
  all_goals simp_all

theorem encode_vec_section_render (id : Nat) (buf : List Nat) (count : Nat) :
    encode_vec_section id buf count = renderSec (id, vecPayload buf count) := by
  simp [encode_vec_section, renderSec, vecPayload, encode_vec,
    encode_section_header]

theorem encode_start_section_render (start : Nat) :
    encode_start_section start = renderSec (8, encode_u32 start) := by
  simp [encode_start_section, renderSec, encode_section_header]

theorem renderSecs_append (a b : List (Nat × List Nat)) :
    renderSecs (a ++ b) = renderSecs a ++ renderSecs b := by
  simp [renderSecs]

theorem renderSecs_vecSecs {α : Type} (enc : α → List Nat) (id : Nat)
    (xs : List α) :
    renderSecs (vecSecs enc id xs) =
      (if xs.length ≠ 0 then
        encode_vec_section id ((xs.map enc).flatten) xs.length
      else []) := by
  unfold vecSecs
  split <;> simp [renderSecs, encode_vec_section_render]

theorem renderSecs_startSecs (st : Option Nat) :
    renderSecs (startSecs st) =
      (match st with
       | some s => encode_start_section s
       | none => []) := by
  cases st <;> simp [startSecs, renderSecs, encode_start_section_render]

theorem opt_chunk {α : Type} (f : α → Option (List Nat)) (id : Nat)
    (xs : List α) :
    (if xs.length ≠ 0 then
      (match encodeAll f xs with
       | none => none
       | some buf => some (encode_vec_section id buf xs.length)) else some []) =
      (optSecs f id xs).map renderSecs := by
  unfold optSecs
  split
  · cases encodeAll f xs <;> simp [renderSecs, encode_vec_section_render]
  · simp [renderSecs]

/-- `Module::encode` through the section view: on success the output is
the prologue followed by the rendered sections. -/
theorem moduleEncode_render (m : Module) :
    Module.encode m =
      (moduleSections m).map (fun secs => MAGIC ++ VERSION ++ renderSecs secs) := by
  have e1 : (if m.types.length ≠ 0 then encode_type_section m.types else []) =
      renderSecs (vecSecs FunctionType.encode 1 m.types) := by
    rw [renderSecs_vecSecs]; rfl
  have e2 : (if m.imports.length ≠ 0 then encode_import_section m.imports else []) =
      renderSecs (vecSecs Import.encode 2 m.imports) := by
    rw [renderSecs_vecSecs]; rfl
  have e3 : (if m.functions.length ≠ 0 then encode_function_section m.functions else []) =
      renderSecs (vecSecs encode_u32 3 m.functions) := by
    rw [renderSecs_vecSecs]; rfl
  have e4 : (if m.tables.length ≠ 0 then encode_table_section m.tables else []) =
      renderSecs (vecSecs TableType.encode 4 m.tables) := by
    rw [renderSecs_vecSecs]; rfl
  have e5 : (if m.memory.length ≠ 0 then encode_memory_section m.memory else []) =
      renderSecs (vecSecs MemoryType.encode 5 m.memory) := by
    rw [renderSecs_vecSecs]; rfl
  have e7 : (if m.exports.length ≠ 0 then encode_export_section m.exports else []) =
      renderSecs (vecSecs Export.encode 7 m.exports) := by
    rw [renderSecs_vecSecs]; rfl
  have e8 : (match m.start with
       | some s => encode_start_section s
       | none => []) = renderSecs (startSecs m.start) := by
    rw [renderSecs_startSecs]
  have h6 : (if m.globals.length ≠ 0 then encode_global_section m.globals else some []) =
      (optSecs Global.encode 6 m.globals).map renderSecs := by
    rw [← opt_chunk]; rfl
  have h9 : (if m.elements.length ≠ 0 then encode_element_section m.elements else some []) =
      (optSecs Element.encode 9 m.elements).map renderSecs := by
    rw [← opt_chunk]; rfl
  have h10 : (if m.code.length ≠ 0 then encode_code_section m.code else some []) =
      (optSecs encode_code 10 m.code).map renderSecs := by
    rw [← opt_chunk]; rfl
  have h11 : (if m.data.length ≠ 0 then encode_data_section m.data else some []) =
      (optSecs Data.encode 11 m.data).map renderSecs := by
    rw [← opt_chunk]; rfl
  unfold Module.encode moduleSections
  rw [h6]
  cases optSecs Global.encode 6 m.globals with
  | none => rfl
  | some g =>
    rw [Option.map_some']
    rw [h9]
    cases optSecs Element.encode 9 m.elements with
    | none => rfl
    | some e =>
      rw [Option.map_some']
      rw [h10]
      cases optSecs encode_code 10 m.code with
      | none => rfl
      | some c =>
        rw [Option.map_some']
        rw [h11]
        cases optSecs Data.encode 11 m.data with
        | none => rfl
        | some d =>
          rw [Option.map_some']
          simp only [e1, e2, e3, e4, e5, e7, e8, Option.map_some']
          simp [renderSecs_append, List.append_assoc]

theorem vecSecs_ids {α : Type} (enc : α → List Nat) (id : Nat) (xs : List α) :
    (vecSecs enc id xs).map Prod.fst = if xs.length ≠ 0 then [id] else [] := by
  unfold vecSecs
  split <;> simp

theorem startSecs_ids (st : Option Nat) :
    (startSecs st).map Prod.fst = if st.isSome then [8] else [] := by
  cases st <;> simp [startSecs]

theorem optSecs_ids {α : Type} (f : α → Option (List Nat)) (id : Nat)
    (xs : List α) (secs : List (Nat × List Nat)) (h : optSecs f id xs = some secs) :
    secs.map Prod.fst = if xs.length ≠ 0 then [id] else [] := by
  unfold optSecs at h
  split at h
  · cases hA : encodeAll f xs <;> rw [hA] at h
    · exact absurd h (by simp)
    · cases h
      simp_all
  · cases h
    simp_all

theorem chunk_filter (c : Prop) [inst : Decidable c] (a : Nat)
    (r1 r2 : List Nat) (h : r1 = r2) :
    (if c then [a] else []) ++ r1 = if c then a :: r2 else r2 := by
  subst h
  split <;> simp

/-- The ids of the emitted sections, in order: the canonical id list
`[1, …, 11]` filtered by presence of the corresponding collection. -/
theorem moduleSections_ids (m : Module) (secs : List (Nat × List Nat))
    (h : moduleSections m = some secs) :
    secs.map Prod.fst =
      List.filter (presentB m) [1, 2, 3, 4, 5, 6, 7, 8, 9, 10, 11] := by
  unfold moduleSections at h
  cases hg : optSecs Global.encode 6 m.globals <;> rw [hg] at h
  · exact absurd h (by simp)
  case some g =>
  cases he : optSecs Element.encode 9 m.elements <;> rw [he] at h
  · exact absurd h (by simp)
  case some e =>
  cases hc : optSecs encode_code 10 m.code <;> rw [hc] at h
  · exact absurd h (by simp)
  case some c =>
  cases hd : optSecs Data.encode 11 m.data <;> rw [hd] at h
  · exact absurd h (by simp)
  case some d =>
  cases h
  have hg' := optSecs_ids _ _ _ _ hg
  have he' := optSecs_ids _ _ _ _ he
  have hc' := optSecs_ids _ _ _ _ hc
  have hd' := optSecs_ids _ _ _ _ hd
  simp only [List.map_append, vecSecs_ids, startSecs_ids, hg', he', hc', hd',
    List.filter_cons, List.filter_nil, presentB, List.append_assoc,
    decide_eq_true_eq]
  iterate 10 apply chunk_filter
  rfl

/-- C1: the rotation opcodes the encoder actually emits.  The Wasm core
binary format assigns `i32.rotl = 0x77`, `i32.rotr = 0x78`,
`i64.rotl = 0x89`, `i64.rotr = 0x8A`; the encoder instead emits `0x78`
for the 64-bit left rotation and `0x89` for the 32-bit right rotation —
the two opcodes are swapped. -/
theorem rotation_opcodes_swapped :
    Instruction.encode (.LeftRotation .Int) = some ([0x77], 1) ∧
    Instruction.encode (.LeftRotation .Long) = some ([0x78], 1) ∧
    Instruction.encode (.RightRotation .Int) = some ([0x89], 1) ∧
    Instruction.encode (.RightRotation .Long) = some ([0x8A], 1) := by
  refine ⟨rfl, rfl, rfl, rfl⟩

/-- C2: the name length prefix is the character count, not the UTF-8 byte
count.  For the one-character name `é` the UTF-8 encoding is the two
bytes `C3 A9`, yet the emitted prefix is `1`: `encode_name` passes
`chars().count()` to `encode_vec`. -/
theorem name_prefix_is_char_count :
    encode_name ['é'] = ([1, 0xC3, 0xA9], 3) ∧
    (nameBytes ['é']).length = 2 ∧
    Export.encode ⟨['é'], .Function 0⟩ = [1, 0xC3, 0xA9, 0x00, 0x00] := by
  decide

/-- C3: the code-entry size prefix undercounts when the body contains a
saturating truncation.  The entry for a function with no locals and body
`i32.trunc_sat_f32_s` occupies the 4 bytes `00 FC 00 0B`, but the emitted
entry-size prefix is `3` — the `SaturateTruncate` arm of
`Instruction::encode` discards the byte count of its `0xFC` prefix
write.  The same wrong prefix appears in the full module output. -/
theorem code_entry_size_undercounts :
    encode_code ⟨[], ⟨[.SaturateTruncate .Int .Float true]⟩⟩ =
      some ([0x03] ++ [0x00, 0xFC, 0x00, 0x0B]) ∧
    ([0x00, 0xFC, 0x00, 0x0B] : List Nat).length = 4 ∧
    Module.encode
        { Module.new with code := [⟨[], ⟨[.SaturateTruncate .Int .Float true]⟩⟩] } =
      some [0x00, 0x61, 0x73, 0x6D, 0x01, 0x00, 0x00, 0x00,
        0x0A, 0x06, 0x01, 0x03, 0x00, 0xFC, 0x00, 0x0B] := by
  decide

/-- C4 counterexample: a `Block` whose body contains an impossible load
makes `Instruction::encode` panic although the block itself is none of
the shapes the claim lists, so "for every other instruction shape it
never panics" fails as stated. -/
theorem block_with_bad_load_panics :
    Instruction.encode
        (.Block .Empty [.Load ⟨0, 0⟩ .Int (some (true, .Int))]) = none ∧
    isImpossibleShape
        (.Block .Empty [.Load ⟨0, 0⟩ .Int (some (true, .Int))]) = false := by
  decide

/-- C4 (amended): `Instruction::encode` panics exactly on the
instructions that are — or recursively contain, nested in a block, loop
or if body — one of the structurally unrepresentable load/store/extend
shapes; every other instruction encodes without panicking. -/
theorem encode_none_iff_hasImpossible (i : Instruction) :
    Instruction.encode i = none ↔ hasImpossible i = true := by
  rw [← Option.isNone_iff_eq_none, encode_isNone_eq.1 i]

/-- C4 witness at concrete inputs: an impossible store panics, a plain
store does not. -/
theorem encode_none_iff_hasImpossible_witness :
    (Instruction.encode (.Store ⟨0, 0⟩ .Int (some .Int)) = none) ∧
    ¬(Instruction.encode (.Store ⟨0, 0⟩ .Int none) = none) :=
  ⟨(encode_none_iff_hasImpossible (.Store ⟨0, 0⟩ .Int (some .Int))).mpr
      (by decide),
    fun h => by
      have := (encode_none_iff_hasImpossible (.Store ⟨0, 0⟩ .Int none)).mp h
      simp [hasImpossible, storeBad] at this⟩

/-- C5: on success, `Module::encode` emits the magic/version prologue and
then exactly the sections of the non-empty collections (the start
section exactly when an index is set), each framed as
`id ‖ LEB128(payload length) ‖ payload`, with the canonical ids
`1, …, 11` in canonical order. -/
theorem module_encode_sections (m : Module) (secs : List (Nat × List Nat))
    (h : moduleSections m = some secs) :
    Module.encode m = some (MAGIC ++ VERSION ++ renderSecs secs) ∧
    secs.map Prod.fst =
      List.filter (presentB m) [1, 2, 3, 4, 5, 6, 7, 8, 9, 10, 11] := by
  constructor
  · rw [moduleEncode_render, h]
    rfl
  · exact moduleSections_ids m secs h

/-- C5 witness: a module with exactly one memory `{min 0, max 1}`. -/
theorem module_encode_sections_witness :
    Module.encode { Module.new with memory := [⟨⟨0, some 1⟩⟩] } =
      some (MAGIC ++ VERSION ++ renderSecs [(5, [0x01, 0x01, 0x00, 0x01])]) ∧
    ([(5, [0x01, 0x01, 0x00, 0x01])] : List (Nat × List Nat)).map Prod.fst =
      List.filter (presentB { Module.new with memory := [⟨⟨0, some 1⟩⟩] })
        [1, 2, 3, 4, 5, 6, 7, 8, 9, 10, 11] :=
  module_encode_sections { Module.new with memory := [⟨⟨0, some 1⟩⟩] }
    [(5, [0x01, 0x01, 0x00, 0x01])] (by decide)

/-- C6 counterexample: a module with a non-empty code section and an
empty data collection whose output nevertheless contains the byte `0x0B`
(the data section id) — as the `end` marker of the function body. -/
theorem data_id_byte_occurs_in_output :
    Module.encode { Module.new with code := [⟨[], ⟨[]⟩⟩] } =
      some [0x00, 0x61, 0x73, 0x6D, 0x01, 0x00, 0x00, 0x00,
        0x0A, 0x04, 0x01, 0x02, 0x00, 0x0B] ∧
    ({ Module.new with code := [⟨[], ⟨[]⟩⟩] } : Module).data.length = 0 ∧
    (0x0B : Nat) ∈ [0x00, 0x61, 0x73, 0x6D, 0x01, 0x00, 0x00, 0x00,
        0x0A, 0x04, 0x01, 0x02, 0x00, 0x0B] := by
  decide

/-- C6 (amended): `Module::encode` never emits a *section* for an empty
collection: on success the output is exactly the prologue plus the
rendered sections of the present collections, and the id of an absent
collection never occurs among the emitted sections (it may still occur
inside a payload, e.g. `0x0B` as an expression end marker). -/
theorem no_section_for_empty_collection (m : Module)
    (secs : List (Nat × List Nat)) (h : moduleSections m = some secs) :
    Module.encode m = some (MAGIC ++ VERSION ++ renderSecs secs) ∧
    ∀ i : Nat, presentB m i = false → i ∉ secs.map Prod.fst := by
  refine ⟨by rw [moduleEncode_render, h]; rfl, ?_⟩
  intro i hp hmem
  rw [moduleSections_ids m secs h] at hmem
  have hmem2 := List.of_mem_filter hmem
  rw [hp] at hmem2
  cases hmem2

/-- C6 witness: the data section id `11` is not among the sections of a
module whose only content is one global. -/
theorem no_section_for_empty_collection_witness :
    (11 : Nat) ∉
      ([(6, [0x01, 0x7F, 0x00, 0x41, 0x2A, 0x0B])] :
        List (Nat × List Nat)).map Prod.fst :=
  (no_section_for_empty_collection
    { Module.new with globals := [⟨⟨.I32, false⟩, ⟨[.Const (.Int 42)]⟩⟩] }
    [(6, [0x01, 0x7F, 0x00, 0x41, 0x2A, 0x0B])] (by decide)).2 11 (by decide)

/-- C7: the LEB128 encoders stay within the byte budgets the `assert!`s
of `types.rs` demand — at most 5 bytes for any `u32` or `i32`, at most 10
bytes for any `i64` — so the assertions never fire. -/
theorem leb128_length_asserts :
    (∀ v : Nat, v < 4294967296 → (encode_u32 v).length ≤ 5) ∧
    (∀ v : Int, -2147483648 ≤ v → v < 2147483648 →
      (encode_i32 v).length ≤ 5) ∧
    (∀ v : Int, -9223372036854775808 ≤ v → v < 9223372036854775808 →
      (encode_i64 v).length ≤ 10) :=
  ⟨encode_u32_length, encode_i32_length, encode_i64_length⟩

/-- C7 witness at the extremes of each range. -/
theorem leb128_length_asserts_witness :
    (encode_u32 4294967295).length ≤ 5 ∧
    (encode_i32 (-2147483648)).length ≤ 5 ∧
    (encode_i64 9223372036854775807).length ≤ 10 :=
  ⟨leb128_length_asserts.1 4294967295 (by norm_num),
    leb128_length_asserts.2.1 (-2147483648) (by norm_num) (by norm_num),
    leb128_length_asserts.2.2 9223372036854775807 (by norm_num) (by norm_num)⟩

/-- C8: the module whose only content is one immutable `i32` global with
init `i32.const 42` yields the global section
`06 06 01 7F 00 41 2A 0B` (mutability byte `0x00`, constant `0x2A`,
end marker `0x0B`). -/
theorem global_const42_section_bytes :
    encode_global_section [⟨⟨.I32, false⟩, ⟨[.Const (.Int 42)]⟩⟩] =
      some [0x06, 0x06, 0x01, 0x7F, 0x00, 0x41, 0x2A, 0x0B] ∧
    Module.encode
        { Module.new with globals := [⟨⟨.I32, false⟩, ⟨[.Const (.Int 42)]⟩⟩] } =
      some ([0x00, 0x61, 0x73, 0x6D, 0x01, 0x00, 0x00, 0x00] ++
        [0x06, 0x06, 0x01, 0x7F, 0x00, 0x41, 0x2A, 0x0B]) := by
  decide

/-- C9: encoding `Module::new()` produces exactly the 8 prologue bytes. -/
theorem empty_module_bytes :
    Module.encode Module.new =
      some [0x00, 0x61, 0x73, 0x6D, 0x01, 0x00, 0x00, 0x00] := by
  decide

/-- C10: an `If` with a present-but-empty reject branch emits the `else`
marker `0x05` immediately followed by the end byte `0x0B`, while an `If`
with no reject branch omits the `0x05`; the two encodings differ. -/
theorem if_empty_reject_differs_from_none (ty : BlockType)
    (acc : List Instruction) (bs : List Nat) (n : Nat)
    (h : encodeSeq acc = some (bs, n)) :
    Instruction.encode (.If ty acc (some [])) =
      some (0x04 :: BlockType.encode ty ++ bs ++ [0x05, 0x0B],
        1 + (BlockType.encode ty).length + n + 2) ∧
    Instruction.encode (.If ty acc none) =
      some (0x04 :: BlockType.encode ty ++ bs ++ [0x0B],
        1 + (BlockType.encode ty).length + n + 1) ∧
    Instruction.encode (.If ty acc (some [])) ≠
      Instruction.encode (.If ty acc none) := by
  have h1 : Instruction.encode (.If ty acc (some [])) =
      some (0x04 :: BlockType.encode ty ++ bs ++ [0x05, 0x0B],
        1 + (BlockType.encode ty).length + n + 2) := by
    rw [encode_If, h]
    simp [encodeSeq]
  have h2 : Instruction.encode (.If ty acc none) =
      some (0x04 :: BlockType.encode ty ++ bs ++ [0x0B],
        1 + (BlockType.encode ty).length + n + 1) := by
    rw [encode_If, h]
  refine ⟨h1, h2, ?_⟩
  rw [h1, h2]
  intro heq
  have hb := congrArg Prod.fst (Option.some.inj heq)
  have hlen := congrArg List.length hb
  simp [List.length_append] at hlen

/-- C10 witness at a concrete accept body. -/
theorem if_empty_reject_differs_from_none_witness :
    Instruction.encode (.If .Empty [.NOP] (some [])) =
      some (0x04 :: BlockType.encode .Empty ++ [0x01] ++ [0x05, 0x0B],
        1 + (BlockType.encode .Empty).length + 1 + 2) ∧
    Instruction.encode (.If .Empty [.NOP] none) =
      some (0x04 :: BlockType.encode .Empty ++ [0x01] ++ [0x0B],
        1 + (BlockType.encode .Empty).length + 1 + 1) ∧
    Instruction.encode (.If .Empty [.NOP] (some [])) ≠
      Instruction.encode (.If .Empty [.NOP] none) :=
  if_empty_reject_differs_from_none .Empty [.NOP] [0x01] 1 (by decide)

end WasmBuilder
